import Mathlib

/-
Verification of the XPath resolution and namespace-normalization layer of
the xqr repository (src/xqr/core/xpath_utils.py and the superseded variant
in src/xqr/core.py), embedded shallowly: Python strings become `List Char`,
stateful scanning becomes explicit state passing, and operations that can
raise (tuple unpacking of `str.split(sep, 1)`, list indexing) return
`Option`, with Python's `try/except` modelled as recovery on `none`.
-/

/-- Python strings are modelled as lists of characters. -/
abbrev Str := List Char

/-- The characters of a Lean string literal, used to write Python string
literals in the embedding. -/
def chars (s : String) : Str := s.data

/-- Python `c in s` for a single character `c` (substring test of length 1). -/
def hasChar (c : Char) : Str → Bool
  | [] => false
  | d :: rest => if d = c then true else hasChar c rest

/-- Python `needle in hay` (substring containment; the empty needle is in
every string). -/
def strContains (hay needle : Str) : Bool :=
  match hay with
  | [] => needle.isEmpty
  | _ :: t => needle.isPrefixOf hay || strContains t needle

/-- Python `s.startswith((p1, ..., pn))`: true when some listed string is a
prefix of `s`. -/
def startsWithAnyOf (ps : List Str) (s : Str) : Bool :=
  ps.any fun p => p.isPrefixOf s

/-- The whitespace characters Python's `str.strip` and `str.lstrip` remove
(ASCII whitespace, the relevant set here). -/
def isPySpace (c : Char) : Bool :=
  c = ' ' || c = '\t' || c = '\n' || c = '\r' || c = '\x0b' || c = '\x0c'

/-- Python `s.lstrip()`. -/
def lstrip (s : Str) : Str := s.dropWhile isPySpace

/-- Python `s.strip()`: whitespace removed from both ends. -/
def stripWs (s : Str) : Str :=
  ((s.dropWhile isPySpace).reverse.dropWhile isPySpace).reverse

/-- Python `s.strip(set)`: every leading and trailing character that is in
`set` is removed. -/
def stripChars (set : Str) (s : Str) : Str :=
  ((s.dropWhile (hasChar · set)).reverse.dropWhile (hasChar · set)).reverse

/-- Helper of `splitOnChar`: accumulates the current field (reversed). -/
def splitOnCharAux (sep : Char) : Str → Str → List Str
  | [], acc => [acc.reverse]
  | c :: rest, acc =>
    if c = sep then acc.reverse :: splitOnCharAux sep rest []
    else splitOnCharAux sep rest (c :: acc)

/-- Python `s.split(sep)` for a one-character separator: fields between
separators, empty fields kept, `"".split(sep) == [""]`. -/
def splitOnChar (sep : Char) (s : Str) : List Str := splitOnCharAux sep s []

/-- Python `s.split(sep, 1)` for a one-character separator: the part before
the first separator, and `some` remainder when the separator occurs
(`none` means the split returned a one-element list). -/
def splitFirstChar (sep : Char) : Str → Str × Option Str
  | [] => ([], none)
  | c :: rest =>
    if c = sep then ([], some rest)
    else
      let p := splitFirstChar sep rest
      (c :: p.1, p.2)

/-- The constant namespace map `{'svg': 'http://www.w3.org/2000/svg'}` that
`prepare_xpath_for_svg` builds on every call. -/
def svgNamespaces : List (Str × Str) :=
  [(chars "svg", chars "http://www.w3.org/2000/svg")]

/-- The tuple of path-introducing tokens tested on line 28 of
xpath_utils.py: `('//', '/', './/', './', '(', '@')`. -/
def pathStarts : List Str :=
  [chars "//", chars "/", chars ".//", chars "./", chars "(", chars "@"]

/-- The tuple of tokens tested on line 100 of xpath_utils.py:
`('//', './/', '/', './', '(', '@')`. -/
def resultStarts : List Str :=
  [chars "//", chars ".//", chars "/", chars "./", chars "(", chars "@"]

/-- The try-block of the simple attribute-predicate rewrite
(xpath_utils.py lines 78-87): extract `attr_name` and `attr_value` from the
predicate and rebuild it as `[@*[local-name()='name']='value']`. `none`
models both an IndexError/ValueError inside the try-block and the case
`'=' not in attr_part`, in which Python leaves the predicate unchanged. -/
def parseAttrEq (pred : Str) : Option Str :=
  match (splitFirstChar '@' pred).2 with
  | none => none
  | some afterAt =>
    let attrPart := (splitFirstChar ']' afterAt).1
    if hasChar '=' attrPart then
      match splitFirstChar '=' attrPart with
      | (_, none) => none
      | (attrName, some attrValue) =>
        some (chars "[@*[local-name()='" ++ stripWs attrName ++
              chars "']='" ++ stripChars (chars "\"'") (stripWs attrValue) ++
              chars "']")
    else none

/-- The predicate rewrite of xpath_utils.py lines 77-90: predicates holding
`@`, `=` and `]` go through the simple-attribute rewrite, a failure of which
(the except-branch) keeps the original predicate; every other predicate is
kept as it is. -/
def rewritePred (pred : Str) : Str :=
  if hasChar '@' pred && hasChar '=' pred && hasChar ']' pred then
    match parseAttrEq pred with
    | some p => p
    | none => pred
  else pred

/-- The element rewrite of xpath_utils.py lines 73-74: a non-empty element
name becomes `*[local-name()="name"]`. -/
def rewriteElem (elemPart : Str) : Str :=
  if elemPart.isEmpty then elemPart
  else chars "*[local-name()=\"" ++ elemPart ++ chars "\"]"

/-- Recombination of a bracketed step (xpath_utils.py line 92):
`{elem_part}{pred}` when the rewritten element name is non-empty, else the
predicate alone. -/
def rewriteBracketStep (elemPart predRest : Str) : Str :=
  if (rewriteElem elemPart).isEmpty then rewritePred ('[' :: predRest)
  else rewriteElem elemPart ++ rewritePred ('[' :: predRest)

/-- One iteration of the general-case loop of `prepare_xpath_for_svg`
(xpath_utils.py lines 46-96), on one step of the `/`-split path. `none`
models an uncaught unpacking error of `part.split('[', 1)`. -/
def rewriteStep (part : Str) : Option Str :=
  if part.isEmpty || part = chars "." then some part
  else if (chars "@").isPrefixOf part then
    some (chars "@*[local-name()=\"" ++ part.drop 1 ++ chars "\"]")
  else if part = chars "text()" then some (chars "text()")
  else if part = chars "." || part = chars ".." then some part
  else if hasChar '[' part && hasChar ']' part then
    match splitFirstChar '[' part with
    | (_, none) => none
    | (elemPart, some predRest) => some (rewriteBracketStep elemPart predRest)
  else some (chars "*[local-name()=\"" ++ part ++ chars "\"]")

/-- The general-case loop over all steps: the Python for-loop building
`parts`, with an exception in any iteration propagating out. -/
def mapStepsM : List Str → Option (List Str)
  | [] => some []
  | p :: rest =>
    match rewriteStep p, mapStepsM rest with
    | some q, some qs => some (q :: qs)
    | _, _ => none

/-- Lines 99-101 of xpath_utils.py: prefix the rejoined result with `//`
unless it already starts with a path-introducing token. -/
def finishResult (result : Str) : Str :=
  if startsWithAnyOf resultStarts result then result
  else chars "//" ++ result

/-- `prepare_xpath_for_svg` of src/xqr/core/xpath_utils.py (lines 11-103):
rewrites a raw XPath string into a namespace-agnostic `local-name()` form
and pairs it with the constant SVG namespace map. `none` models an uncaught
Python exception. -/
def prepare_xpath_for_svg (xpath : Str) : Option (Str × List (Str × Str)) :=
  if strContains xpath (chars "local-name()") then some (xpath, svgNamespaces)
  else if hasChar ':' xpath && !(startsWithAnyOf pathStarts (lstrip xpath)) then
    some (xpath, svgNamespaces)
  else if xpath.isEmpty then some (chars "//*", svgNamespaces)
  else if (chars "@").isPrefixOf xpath then
    some (chars "@*[local-name()=\"" ++ xpath.drop 1 ++ chars "\"]", svgNamespaces)
  else if !((chars "[]/()@").any fun c => hasChar c xpath) then
    some (chars "//*[local-name()=\"" ++ xpath ++ chars "\"]", svgNamespaces)
  else
    match mapStepsM (splitOnChar '/' xpath) with
    | none => none
    | some parts =>
      some (finishResult (List.intercalate (chars "/") parts), svgNamespaces)

/-- An error raised inside the character scan of `find_elements_by_xpath`
(xpath_utils.py lines 128-146). -/
inductive ScanIssue where
  | unmatchedClose (c : Char) (i : Nat)
  | mismatched (opened closed : Char)
deriving DecidableEq

/-- The mutable state of the scan (xpath_utils.py lines 124-126): the
bracket stack (head is Python's `stack[-1]`), the quote flag and the
current quote character. -/
structure ScanState where
  inQuotes : Bool
  quoteChar : Option Char
  stack : List Char
deriving DecidableEq

/-- One iteration of the scan loop (xpath_utils.py lines 128-146) on the
character `c` at 0-based position `i`, with `prev` the previous character
(`none` at position 0, where Python's `i == 0` guard short-circuits the
`xpath[i-1]` access). -/
def scanStep (prev : Option Char) (i : Nat) (c : Char) (st : ScanState) :
    Except ScanIssue ScanState :=
  if (c = '\'' ∨ c = '"') ∧ (i = 0 ∨ ¬ prev = some '\\') then
    if ¬ st.inQuotes then .ok { st with inQuotes := true, quoteChar := some c }
    else if some c = st.quoteChar then
      .ok { st with inQuotes := false, quoteChar := none }
    else .ok st
  else if ¬ st.inQuotes then
    if c = '[' ∨ c = '(' ∨ c = '{' then .ok { st with stack := c :: st.stack }
    else if c = ']' ∨ c = ')' ∨ c = '}' then
      match st.stack with
      | [] => .error (.unmatchedClose c i)
      | last :: rest =>
        if (c = ']' ∧ ¬ last = '[') ∨ (c = ')' ∧ ¬ last = '(') ∨
           (c = '}' ∧ ¬ last = '{') then
          .error (.mismatched last c)
        else .ok { st with stack := rest }
    else .ok st
  else .ok st

/-- The whole scan loop: folds `scanStep` over the characters, threading
the previous character and the position, an error aborting the loop. -/
def scanAux : List Char → Option Char → Nat → ScanState →
    Except ScanIssue ScanState
  | [], _, _, st => .ok st
  | c :: rest, prev, i, st =>
    match scanStep prev i c st with
    | .error e => .error e
    | .ok st2 => scanAux rest (some c) (i + 1) st2

/-- The ValueError raised by the validation prefix of
`find_elements_by_xpath` (xpath_utils.py lines 120-157), one constructor
per raise site. -/
inductive XPathError where
  | emptyExpr
  | unmatchedClose (c : Char) (i : Nat)
  | mismatched (opened closed : Char)
  | unclosedString
  | unmatchedOpen (c : Char)
  | invalidDotStep
  | invalidPredClose
  | normalizeFailure
deriving DecidableEq

/-- The validation prefix of `find_elements_by_xpath` (xpath_utils.py
lines 120-157): the empty-input check, the quote/bracket scan, the
end-of-input checks, and the two post-scan substring heuristics. `none`
means no error is raised. -/
def validate_xpath (xpath : Str) : Option XPathError :=
  if xpath.isEmpty || (stripWs xpath).isEmpty then some .emptyExpr
  else
    match scanAux xpath none 0 ⟨false, none, []⟩ with
    | .error (.unmatchedClose c i) => some (.unmatchedClose c i)
    | .error (.mismatched a b) => some (.mismatched a b)
    | .ok st =>
      if st.inQuotes then some .unclosedString
      else
        match st.stack with
        | c :: _ => some (.unmatchedOpen c)
        | [] =>
          if strContains xpath (chars "//") && strContains xpath (chars "//.") then
            some .invalidDotStep
          else if strContains xpath (chars "]]") &&
              !(strContains xpath (chars "]]>")) then
            some .invalidPredClose
          else none

/-- Whether the string has an occurrence of `]]` that is not immediately
followed by `>` (the condition the specification states for the
invalid-predicate-closer error), an occurrence at the end of the string
counting as not followed by `>`. -/
def hasBareDoubleClose : Str → Bool
  | ']' :: ']' :: c :: rest =>
    (if c = '>' then false else true) || hasBareDoubleClose (']' :: c :: rest)
  | [']', ']'] => true
  | _ :: rest => hasBareDoubleClose rest
  | [] => false

/-- The query `find_elements_by_xpath` (xpath_utils.py lines 106-173) hands
to the underlying evaluator `tree.xpath`: validation first, then — only for
file type `svg` — normalization, otherwise the raw string with an empty
namespace map. The tree and the evaluation itself stay abstract. -/
def find_elements_by_xpath_query (xpath : Str) (file_type : Str) :
    Except XPathError (Str × List (Str × Str)) :=
  match validate_xpath xpath with
  | some e => .error e
  | none =>
    if file_type = chars "svg" then
      match prepare_xpath_for_svg xpath with
      | some p => .ok p
      | none => .error .normalizeFailure
    else .ok (xpath, [])

/-- The element rewrite inside `XMLEditor._prepare_xpath_for_svg`
(src/xqr/core.py lines 181-186): prefix the element name with `svg:` unless
it already starts with `@`, `.`, `svg:` or a listed function name. -/
def editorElem (elem : Str) : Str :=
  if !(startsWithAnyOf [chars "@", chars ".", chars "svg:"] elem) &&
     !(startsWithAnyOf [chars "contains", chars "starts-with", chars "ends-with"]
        elem) then
    chars "svg:" ++ elem
  else elem

/-- One iteration of the loop of `XMLEditor._prepare_xpath_for_svg`
(src/xqr/core.py lines 169-194). `none` models an uncaught unpacking error
of `part.split('[', 1)`. -/
def editorStep (part : Str) : Option Str :=
  if part.isEmpty || part = chars "." then some part
  else if (chars "@").isPrefixOf part || part = chars "text()" ||
      part = chars "." || part = chars ".." || part = chars "node()" then
    some part
  else if hasChar '[' part then
    match splitFirstChar '[' part with
    | (_, none) => none
    | (elem, some predRest) => some (editorElem elem ++ ('[' :: predRest))
  else if !(startsWithAnyOf [chars "@", chars ".", chars "svg:"] part) then
    some (chars "svg:" ++ part)
  else some part

/-- The loop of `XMLEditor._prepare_xpath_for_svg` over all steps. -/
def editorSteps : List Str → Option (List Str)
  | [] => some []
  | p :: rest =>
    match editorStep p, editorSteps rest with
    | some q, some qs => some (q :: qs)
    | _, _ => none

/-- `XMLEditor._prepare_xpath_for_svg` of src/xqr/core.py (lines 152-196):
the alternate normalizer that prefixes bare element steps with `svg:`
instead of rewriting them to `local-name()` predicates. -/
def XMLEditor_prepare_xpath_for_svg (xpath : Str) :
    Option (Str × List (Str × Str)) :=
  if hasChar ':' xpath && !(startsWithAnyOf pathStarts (lstrip xpath)) then
    some (xpath, svgNamespaces)
  else
    match editorSteps (splitOnChar '/' xpath) with
    | none => none
    | some parts => some (List.intercalate (chars "/") parts, svgNamespaces)

/-- Python's `s.split(sep, 1)` returns two pieces whenever `sep` occurs in
`s`, so the tuple unpacking on it cannot fail then. -/
theorem splitFirstChar_of_hasChar (sep : Char) (s : Str)
    (h : hasChar sep s = true) : ((splitFirstChar sep s).2).isSome = true := by
  induction s with
  | nil => simp [hasChar] at h
  | cons d rest ih =>
    unfold hasChar at h
    unfold splitFirstChar
    by_cases hd : d = sep
    · simp [hd]
    · simp [hd] at h ⊢
      exact ih h

/-- Every step of the general-case loop of `prepare_xpath_for_svg`
produces a value: the one fallible unpacking is guarded by `'[' in part`. -/
theorem rewriteStep_isSome (part : Str) : (rewriteStep part).isSome = true := by
  unfold rewriteStep
  repeat' split
  all_goals try rfl
  next h _ _ heq =>
    have hbr : hasChar '[' part = true := (Bool.and_eq_true _ _).mp h |>.1
    have := splitFirstChar_of_hasChar '[' part hbr
    rw [heq] at this
    simp at this

/-- The whole general-case loop of `prepare_xpath_for_svg` produces a
value on every list of steps. -/
theorem mapStepsM_isSome (l : List Str) : (mapStepsM l).isSome = true := by
  induction l with
  | nil => rfl
  | cons p rest ih =>
    unfold mapStepsM
    cases hp : rewriteStep p with
    | none =>
      have := rewriteStep_isSome p
      rw [hp] at this
      simp at this
    | some q =>
      cases hr : mapStepsM rest with
      | none =>
        rw [hr] at ih
        simp at ih
      | some qs => rfl

/-- C4: `normalize("rect[@id='foo']")` returns exactly
`//*[local-name()="rect"][@*[local-name()='id']='foo']` — the element name
becomes a `local-name()` test with double quotes, the single
attribute-equality predicate becomes a namespace-agnostic
`@*[local-name()=...]` test with single quotes, and the result is prefixed
with `//` — together with the constant SVG namespace map. -/
theorem claim_c4 :
    prepare_xpath_for_svg (chars "rect[@id='foo']") =
      some (chars "//*[local-name()=\"rect\"][@*[local-name()='id']='foo']",
        svgNamespaces) := by
  decide

/-- C5: every input containing `local-name()` is returned unchanged paired
with the constant SVG namespace map, and the namespace-map component is
that constant map on every input whatsoever. -/
theorem claim_c5 :
    (∀ s : Str, strContains s (chars "local-name()") = true →
      prepare_xpath_for_svg s = some (s, svgNamespaces)) ∧
    (∀ (s : Str) (r : Str × List (Str × Str)),
      prepare_xpath_for_svg s = some r → r.2 = svgNamespaces) := by
  constructor
  · intro s h
    unfold prepare_xpath_for_svg
    simp [h]
  · intro s r h
    unfold prepare_xpath_for_svg at h
    repeat' split at h
    all_goals (try cases h)
    all_goals rfl

/-- C10: `normalize` is not idempotent on its xpath component: the
general-case rewriter treats the wildcard step `*` as a literal tag name,
so `normalize("//*")` yields `//*[local-name()="*"]`, while
`normalize("")` yields `//*`; re-normalizing the output of
`normalize("")` therefore produces a different string. -/
theorem claim_c10 :
    prepare_xpath_for_svg (chars "") = some (chars "//*", svgNamespaces) ∧
    prepare_xpath_for_svg (chars "//*") =
      some (chars "//*[local-name()=\"*\"]", svgNamespaces) ∧
    ((chars "//*[local-name()=\"*\"]") == chars "//*") = false := by
  decide

/-- C9: the two coexisting normalizers are not extensionally equal: on the
input `rect`, the xpath_utils.py one returns `//*[local-name()="rect"]`
while the core.py `XMLEditor` one returns `svg:rect`. -/
theorem claim_c9 :
    prepare_xpath_for_svg (chars "rect") =
      some (chars "//*[local-name()=\"rect\"]", svgNamespaces) ∧
    XMLEditor_prepare_xpath_for_svg (chars "rect") =
      some (chars "svg:rect", svgNamespaces) ∧
    ((chars "//*[local-name()=\"rect\"]") == chars "svg:rect") = false := by
  decide

/-- C8: `prepare_xpath_for_svg` is total: on every input string it
produces a result (the one fallible unpacking is guarded and every other
step has a safe fallthrough), and a failure of the predicate-parsing
substep is caught, the original predicate being kept. -/
theorem claim_c8 :
    (∀ xpath : Str, (prepare_xpath_for_svg xpath).isSome = true) ∧
    (∀ pred : Str, parseAttrEq pred = none → rewritePred pred = pred) := by
  constructor
  · intro xpath
    unfold prepare_xpath_for_svg
    repeat' split
    all_goals try rfl
    next heq =>
      have := mapStepsM_isSome (splitOnChar '/' xpath)
      rw [heq] at this
      simp at this
  · intro pred h
    unfold rewritePred
    split
    · rw [h]
    · rfl

/-- C7: for every file type other than `svg`, `find_elements_by_xpath`
hands the evaluator the raw xpath string completely unmodified, with an
empty namespace map (assuming validation passes, which is the only path on
which the evaluator is reached). -/
theorem claim_c7 (xpath file_type : Str) (hft : ¬ file_type = chars "svg")
    (hval : validate_xpath xpath = none) :
    find_elements_by_xpath_query xpath file_type = .ok (xpath, []) := by
  unfold find_elements_by_xpath_query
  rw [hval]
  simp [hft]

/-- C7 witness: the spec's own example, `//item[@id='2']` against an `xml`
document, passes through unmodified with an empty namespace map. -/
theorem claim_c7_witness :
    find_elements_by_xpath_query (chars "//item[@id='2']") (chars "xml") =
      .ok (chars "//item[@id='2']", []) :=
  claim_c7 (chars "//item[@id='2']") (chars "xml") (by decide) (by decide)

/-- C1 counterexample: a `node()` step is not passed through unchanged by
the general-case rewriter of `prepare_xpath_for_svg`:
`normalize("//svg/node()")` rewrites the final step to
`*[local-name()="node()"]`, so the per-step handler does not map `node()`
to itself. -/
theorem claim_c1_counterexample :
    prepare_xpath_for_svg (chars "//svg/node()") =
      some (chars "//*[local-name()=\"svg\"]/*[local-name()=\"node()\"]",
        svgNamespaces) ∧
    (rewriteStep (chars "node()") == some (chars "node()")) = false := by
  decide

/-- C1 amended: in the general-case rewriter of `prepare_xpath_for_svg`,
steps equal to `text()`, `.` and `..` are passed through unchanged, but
`node()` is not special-cased: it falls through to the plain-element-name
rule and is rewritten to `*[local-name()="node()"]`, so
`normalize("//svg/node()")` yields
`//*[local-name()="svg"]/*[local-name()="node()"]`. -/
theorem claim_c1_amended :
    rewriteStep (chars "text()") = some (chars "text()") ∧
    rewriteStep (chars ".") = some (chars ".") ∧
    rewriteStep (chars "..") = some (chars "..") ∧
    rewriteStep (chars "node()") = some (chars "*[local-name()=\"node()\"]") ∧
    prepare_xpath_for_svg (chars "//svg/node()") =
      some (chars "//*[local-name()=\"svg\"]/*[local-name()=\"node()\"]",
        svgNamespaces) := by
  decide

/-- C2 counterexample: a compound predicate containing `@` and `=` is not
passed through verbatim: `normalize("rect[@a='x' and @b='y']")` rewrites
the predicate through the simple-attribute heuristic, and the original
predicate substring `[@a='x' and @b='y']` does not occur in the output. -/
theorem claim_c2_counterexample :
    prepare_xpath_for_svg (chars "rect[@a='x' and @b='y']") =
      some (chars "//*[local-name()=\"rect\"][@*[local-name()='a']='x' and @b='y']",
        svgNamespaces) ∧
    strContains
      (chars "//*[local-name()=\"rect\"][@*[local-name()='a']='x' and @b='y']")
      (chars "[@a='x' and @b='y']") = false := by
  decide

/-- C2 amended: a predicate lacking `@` or lacking `=` is kept verbatim —
so numeric predicates such as `[position()=1]` and function predicates
without `=` such as `[contains(@class,'x')]` appear character-for-character
in the output — but a predicate containing `@`, `=` and `]`, compound ones
such as `[@a='x' and @b='y']` included, is fed to the attribute-equality
heuristic, which rewrites it rather than passing it through verbatim. -/
theorem claim_c2_amended :
    (∀ pred : Str, hasChar '@' pred = false → rewritePred pred = pred) ∧
    (∀ pred : Str, hasChar '=' pred = false → rewritePred pred = pred) ∧
    prepare_xpath_for_svg (chars "rect[position()=1]") =
      some (chars "//*[local-name()=\"rect\"][position()=1]", svgNamespaces) ∧
    strContains (chars "//*[local-name()=\"rect\"][position()=1]")
      (chars "[position()=1]") = true ∧
    prepare_xpath_for_svg (chars "rect[contains(@class,'x')]") =
      some (chars "//*[local-name()=\"rect\"][contains(@class,'x')]",
        svgNamespaces) ∧
    strContains (chars "//*[local-name()=\"rect\"][contains(@class,'x')]")
      (chars "[contains(@class,'x')]") = true ∧
    prepare_xpath_for_svg (chars "rect[@a='x' and @b='y']") =
      some (chars "//*[local-name()=\"rect\"][@*[local-name()='a']='x' and @b='y']",
        svgNamespaces) := by
  refine ⟨?_, ?_, by decide, by decide, by decide, by decide, by decide⟩
  · intro pred h
    unfold rewritePred
    simp [h]
  · intro pred h
    unfold rewritePred
    simp [h]

/-- C3 counterexample: the raw string `']]>' ']]x'` contains an occurrence
of `]]` not immediately followed by `>` (inside the second quoted literal),
yet validation raises no error at all — in particular not the
invalid-predicate-closer error — because the string also contains `]]>`. -/
theorem claim_c3_counterexample :
    hasBareDoubleClose (chars "']]>' ']]x'") = true ∧
    validate_xpath (chars "']]>' ']]x'") = none := by
  decide

/-- C3 amended: the post-scan heuristic raises the invalid-predicate-closer
error only for raw strings that contain `]]` as a substring and do not
contain `]]>` anywhere in the string; a raw string containing a `]]>`
occurrence is therefore never rejected by this check, even when it also
contains a separate `]]` occurrence not followed by `>`. -/
theorem claim_c3_amended :
    (∀ s : Str, strContains s (chars "]]>") = true →
      ¬ validate_xpath s = some XPathError.invalidPredClose) ∧
    (∀ s : Str, validate_xpath s = some XPathError.invalidPredClose →
      strContains s (chars "]]") = true ∧ strContains s (chars "]]>") = false) ∧
    validate_xpath (chars "']]>' ']]x'") = none ∧
    hasBareDoubleClose (chars "']]>' ']]x'") = true := by
  refine ⟨?_, ?_, by decide, by decide⟩
  · intro s h hc
    unfold validate_xpath at hc
    repeat' split at hc
    all_goals simp_all
  · intro s h
    unfold validate_xpath at h
    repeat' split at h
    all_goals simp_all

/-- C6: the validator's scan behaves as specified: a quote preceded by a
backslash does not toggle the quote state; a closing bracket on an empty
stack raises an error naming the character and its 0-based position; a
closer whose popped opener does not pair with it raises a mismatch error
naming both; and on the spec's examples, `//rect[@id='x'` fails citing the
unmatched `[` (the top of the final non-empty stack), `//rect[@id='x]`
fails citing an unclosed string literal (end of input inside quotes), and
`//rect[@id='x']` passes with no error. -/
theorem claim_c6 :
    validate_xpath (chars "//rect[@id='x'") =
      some (XPathError.unmatchedOpen '[') ∧
    validate_xpath (chars "//rect[@id='x]") = some XPathError.unclosedString ∧
    validate_xpath (chars "//rect[@id='x']") = none ∧
    (∀ (st : ScanState) (i : Nat),
      scanStep (some '\\') (i + 1) '\'' st = .ok st) ∧
    (∀ (st : ScanState) (i : Nat),
      scanStep (some '\\') (i + 1) '"' st = .ok st) ∧
    (∀ (prev : Option Char) (i : Nat),
      scanStep prev i ']' ⟨false, none, []⟩ =
        .error (ScanIssue.unmatchedClose ']' i)) ∧
    (∀ (prev : Option Char) (i : Nat),
      scanStep prev i ')' ⟨false, none, []⟩ =
        .error (ScanIssue.unmatchedClose ')' i)) ∧
    (∀ (prev : Option Char) (i : Nat),
      scanStep prev i '}' ⟨false, none, []⟩ =
        .error (ScanIssue.unmatchedClose '}' i)) ∧
    (∀ (prev : Option Char) (i : Nat) (o : Char) (rest : List Char) (c : Char),
      (c = ']' ∧ ¬ o = '[') ∨ (c = ')' ∧ ¬ o = '(') ∨ (c = '}' ∧ ¬ o = '{') →
      scanStep prev i c ⟨false, none, o :: rest⟩ =
        .error (ScanIssue.mismatched o c)) := by
  refine ⟨by decide, by decide, by decide, ?_, ?_, ?_, ?_, ?_, ?_⟩
  · intro st i
    by_cases hq : st.inQuotes <;> simp [scanStep, hq]
  · intro st i
    by_cases hq : st.inQuotes <;> simp [scanStep, hq]
  · intro prev i
    simp [scanStep]
  · intro prev i
    simp [scanStep]
  · intro prev i
    simp [scanStep]
  · intro prev i o rest c h
    rcases h with ⟨hc, ho⟩ | ⟨hc, ho⟩ | ⟨hc, ho⟩ <;> subst hc <;>
      simp [scanStep, ho]
